/-
Verification of the window/tab relative-order tracker of the tabby
browser extension.

The tracker class `TRelativeOrder` (from the repository source) maintains,
per browser window, an ordered sequence of tab ids, an active-tab record,
and an optional display name, plus a global window order and a focused
window id.  The ordered sequences are instances of `T1DLinkedList`
(`./linkedlist`), an id-indexed linked sequence whose source file is not
part of the provided sources; it is modelled here from the specification
of the OrderedIdSequence abstraction (positional insert with clamping,
remove-by-id as a no-op when absent, move = remove-then-insert, array
round trip).

Modelling conventions:
 * JavaScript objects used as integer-keyed dictionaries (`_order`,
   `_active`, `_naming`) become functions `Int → Option α`; a key that is
   present but bound to `undefined` (as `_naming` after `registerWindow`)
   is distinguished from an absent key by using `Option (Option String)`
   for `_naming`, mirroring `hasOwnProperty`.
 * Methods whose JavaScript body dereferences a possibly-missing
   dictionary entry (`this._order[windowId].insert(...)` etc.) throw a
   TypeError when the entry is absent; they are modelled as
   `Option`-valued functions returning `none` in exactly that case, and
   `none` carries no state: the throw happens before any field mutation.
 * The external collaborators (`$localtmp$` key-value store and the
   `TWindowActions` title-preface service) are modelled as explicit data
   threaded through `setName` / `reloadNamesFromTemporaryStore`:
   the store is a map `String → Option String`, the title prefaces a map
   `Int → Option String` recording the last preface text per window.
 * `t_in(obj, key)` (a Polyfill key-membership helper used by
   `hasWindow`) is modelled as presence of the key in the map.
-/
import Mathlib

namespace Tabby

/- `T1DLinkedList` (`./linkedlist`, not among the provided source files) —
an ordered sequence of unique integer ids, modelled over `List Int` from
the spec's OrderedIdSequence abstraction. -/
namespace T1DLinkedList

/-- Modelled from the spec: a `T1DLinkedList` is created empty. -/
def empty : List Int := []

/-- Modelled from the spec: `append(id)` adds `id` at the end. -/
def append (l : List Int) (id : Int) : List Int := l ++ [id]

/-- Modelled from the spec: `insert(id, position)` inserts `id` so that
it occupies `position` (0-based) in the resulting order; out-of-range
positions clamp to append-at-end. -/
def insert (l : List Int) (id : Int) (p : Nat) : List Int :=
  l.take p ++ id :: l.drop p

/-- Modelled from the spec: `remove(id)` removes the element (the first
node) with that id; a no-op if absent. -/
def remove (l : List Int) (id : Int) : List Int :=
  match l with
  | [] => []
  | x :: xs => if x = id then xs else x :: remove xs id

/-- Modelled from the spec: `move(id, newPosition)` removes then
reinserts `id` at `newPosition`, with the same clamping rule as
`insert`. -/
def move (l : List Int) (id : Int) (p : Nat) : List Int :=
  insert (remove l id) id p

/-- Modelled from the spec: `toArray()` is the sequence of ids in
current order. -/
def toArray (l : List Int) : List Int := l

/-- Modelled from the spec: `fromArray(ids)` builds a sequence whose
order is exactly the given array, with no deduplication. -/
def fromArray (a : List Int) : List Int := a

end T1DLinkedList

/-- Pointwise update of an integer-keyed dictionary at one key. -/
def upd {α : Type} (m : Int → Option α) (k : Int) (v : Option α) :
    Int → Option α :=
  fun x => if x = k then v else m x

/-- The relevant fields of a browser `Tab` object as consumed by
`appendTabToWindow`: its id, its position `index`, and its `active`
flag. -/
structure Tab where
  id : Int
  index : Nat
  active : Bool

/-- State of a `TRelativeOrder` instance: window order, per-window tab
order, per-window active tab, focused window id, per-window name.
`_naming` values are `Option (Option String)`: the outer layer is key
presence, the inner layer distinguishes a stored name from the
JavaScript value `undefined` that `registerWindow` and the
clearing branch of `setName` assign. -/
@[ext]
structure TRelativeOrder where
  _worder : List Int
  _order : Int → Option (List Int)
  _active : Int → Option Int
  _focusedWindow : Int
  _naming : Int → Option (Option String)

/-- The `TRelativeOrder` constructor: empty window order, empty
dictionaries, focused window sentinel `-1`. -/
def freshTracker : TRelativeOrder :=
  { _worder := T1DLinkedList.empty
    _order := fun _ => none
    _active := fun _ => none
    _focusedWindow := -1
    _naming := fun _ => none }

namespace TRelativeOrder

/-- `setFocusedWindow(windowId)`. -/
def setFocusedWindow (s : TRelativeOrder) (windowId : Int) : TRelativeOrder :=
  { s with _focusedWindow := windowId }

/-- `getFocusedWindow()`. -/
def getFocusedWindow (s : TRelativeOrder) : Int :=
  s._focusedWindow

/-- `getName(windowId)`: returns `this._naming[windowId]`; both an absent
key and a key bound to `undefined` read back as `undefined`. -/
def getName (s : TRelativeOrder) (windowId : Int) : Option String :=
  (s._naming windowId).bind id

/-- `setActiveTab(parentWindowId, tabId)`. -/
def setActiveTab (s : TRelativeOrder) (parentWindowId tabId : Int) :
    TRelativeOrder :=
  { s with _active := upd s._active parentWindowId (some tabId) }

/-- `getActiveTab(parentWindowId)`: `this._active[parentWindowId]`,
`undefined` (`none`) when no record exists. -/
def getActiveTab (s : TRelativeOrder) (parentWindowId : Int) : Option Int :=
  s._active parentWindowId

/-- `hasWindow(windowId)`: `t_in(this._order, windowId)`, key membership
in the tab-order dictionary. -/
def hasWindow (s : TRelativeOrder) (windowId : Int) : Bool :=
  (s._order windowId).isSome

/-- `registerWindow(windowId)`: fresh empty tab order, active-tab
sentinel `-1`, name set to `undefined` (key present), and the window id
appended to the end of the window order — unconditionally, overwriting
any existing per-window records. -/
def registerWindow (s : TRelativeOrder) (windowId : Int) : TRelativeOrder :=
  { s with
    _order := upd s._order windowId (some T1DLinkedList.empty)
    _active := upd s._active windowId (some (-1))
    _naming := upd s._naming windowId (some none)
    _worder := T1DLinkedList.append s._worder windowId }

/-- `unregisterWindow(windowId)`: deletes the three dictionary entries
and removes the id from the window order (the modelled linked-list
`remove` is a no-op when the id is absent, so the call never throws). -/
def unregisterWindow (s : TRelativeOrder) (windowId : Int) : TRelativeOrder :=
  { s with
    _order := upd s._order windowId none
    _active := upd s._active windowId none
    _naming := upd s._naming windowId none
    _worder := T1DLinkedList.remove s._worder windowId }

/-- `appendTabToWindow(windowId, t, inferActive=true)`:
`this._order[windowId].insert(t.id, t.index)` throws when the window has
no tab-order entry (modelled as `none`, with no state change since the
throw precedes the active-tab assignment); otherwise the tab id is
inserted at position `t.index` and, when `t.active && inferActive`, the
window's active tab is set to `t.id`. -/
def appendTabToWindow (s : TRelativeOrder) (windowId : Int) (t : Tab)
    (inferActive : Bool := true) : Option TRelativeOrder :=
  (s._order windowId).map fun l =>
    { s with
      _order := upd s._order windowId
        (some (T1DLinkedList.insert l t.id t.index))
      _active :=
        if t.active && inferActive then
          upd s._active windowId (some t.id)
        else s._active }

/-- `removeTabFromWindow(windowId, tabId)`: `none` (throw) when the
window has no tab-order entry. -/
def removeTabFromWindow (s : TRelativeOrder) (windowId tabId : Int) :
    Option TRelativeOrder :=
  (s._order windowId).map fun l =>
    { s with
      _order := upd s._order windowId (some (T1DLinkedList.remove l tabId)) }

/-- `insertTabIntoWindow(windowId, tabId, i)`: `none` (throw) when the
window has no tab-order entry. -/
def insertTabIntoWindow (s : TRelativeOrder) (windowId tabId : Int)
    (i : Nat) : Option TRelativeOrder :=
  (s._order windowId).map fun l =>
    { s with
      _order := upd s._order windowId
        (some (T1DLinkedList.insert l tabId i)) }

/-- `moveTabWithinWindow(windowId, tabId, i)`: `none` (throw) when the
window has no tab-order entry. -/
def moveTabWithinWindow (s : TRelativeOrder) (windowId tabId : Int)
    (i : Nat) : Option TRelativeOrder :=
  (s._order windowId).map fun l =>
    { s with
      _order := upd s._order windowId
        (some (T1DLinkedList.move l tabId i)) }

/-- `getAllAs2DArray()`: the array projection of each window's tab order,
outer order the window order.  `this._order[windowId].toArray()` throws
when a window-order entry has no tab-order record; the traversal is
therefore `Option`-valued. -/
def getAllAs2DArray (s : TRelativeOrder) : Option (List (List Int)) :=
  (s._worder.mapM fun windowId => s._order windowId).map
    (List.map T1DLinkedList.toArray)

end TRelativeOrder

/-- The `$localtmp$` key used for a window's name: `` `window${windowId}` ``. -/
def winKey (windowId : Int) : String :=
  "window" ++ toString windowId

/-- JavaScript truthiness of a value that is a string or `undefined`
(`if (name) ...` in `reloadNamesFromTemporaryStore`): `undefined` and the
empty string are falsy. -/
def jsTruthy : Option String → Bool
  | none => false
  | some s => !(s = "")

/-- The JavaScript built-in `String.prototype.trim` as used by
`setName`: strips leading and trailing whitespace.  Modelled over the
string's character list with `Char.isWhitespace` (space, tab, carriage
return, newline; the ECMAScript definition also strips some further
Unicode space code points, which no claim exercises). -/
def jsTrim (s : String) : String :=
  ⟨((s.data.dropWhile Char.isWhitespace).reverse.dropWhile
      Char.isWhitespace).reverse⟩

/-- A tracker together with its external collaborators: the `$localtmp$`
temporary key-value store and, per window id, the text last passed to
`TWindowActions.titlePreface`. -/
structure TEnv where
  rel : TRelativeOrder
  store : String → Option String
  preface : Int → Option String

namespace TRelativeOrder

/-- `setName(windowId, name)`: when `name.trim()` is empty, the local
variable `name` is reassigned to `undefined`, the store key
`` `window${windowId}` `` is unset and the title preface cleared to `""`;
otherwise the original (untrimmed) `name` is persisted under that key
and the preface set to `` `[${name}] ` ``.  Either way the final
statement assigns the (possibly reassigned) `name` to
`this._naming[windowId]`. -/
def setName (e : TEnv) (windowId : Int) (name : String) : TEnv :=
  if jsTrim name = "" then
    { rel := { e.rel with
        _naming := upd e.rel._naming windowId (some none) }
      store := fun k => if k = winKey windowId then none else e.store k
      preface := fun w => if w = windowId then some "" else e.preface w }
  else
    { rel := { e.rel with
        _naming := upd e.rel._naming windowId (some (some name)) }
      store := fun k => if k = winKey windowId then some name else e.store k
      preface := fun w =>
        if w = windowId then some ("[" ++ name ++ "] ") else e.preface w }

/-- `reloadNamesFromTemporaryStore()`: iterates the keys of
`this._naming` (`keys` is the enumerated key list), and for each key
that passes the `hasOwnProperty` guard awaits
`` $localtmp$.getOne(`window${windowId}`) `` and, if the result is
truthy, assigns it to `this._naming[windowId]` — with no check that the
window is still registered after the await.  The suspension at each
await is made explicit: `mid windowId` is the tracker mutation performed
by concurrently scheduled callbacks while the read for `windowId` is in
flight (`fun _ s => s` when the call runs to completion undisturbed). -/
def reloadNamesFromTemporaryStore (store : String → Option String)
    (keys : List Int) (mid : Int → TRelativeOrder → TRelativeOrder)
    (s : TRelativeOrder) : TRelativeOrder :=
  match keys with
  | [] => s
  | windowId :: rest =>
    if (s._naming windowId).isSome then
      let s' := mid windowId s
      let name := store (winKey windowId)
      let s'' :=
        if jsTruthy name then
          { s' with _naming := upd s'._naming windowId (some name) }
        else s'
      reloadNamesFromTemporaryStore store rest mid s''
    else
      reloadNamesFromTemporaryStore store rest mid s

end TRelativeOrder

/-- The plain structure produced by `toSerializable`: window order as an
array, tab orders as a window-id-keyed mapping of arrays, the active-tab
map, the focused window id, and the naming map. -/
structure SerializableRoot where
  worder : List Int
  order : Int → Option (List Int)
  active : Int → Option Int
  focusedWindow : Int
  naming : Int → Option (Option String)

namespace TRelativeOrder

/-- `toSerializable()`: `worder` via `toArray`, `order` by converting
each own entry of `this._order` to its array, and `active`,
`focusedWindow`, `naming` taken as-is. -/
def toSerializable (s : TRelativeOrder) : SerializableRoot :=
  { worder := T1DLinkedList.toArray s._worder
    order := fun windowId => (s._order windowId).map T1DLinkedList.toArray
    active := s._active
    focusedWindow := s._focusedWindow
    naming := s._naming }

/-- `fromSerializable(root)`: starts from the constructor state, rebuilds
`_worder` and each entry of `_order` with `T1DLinkedList.fromArray`, and
assigns `_active`, `_focusedWindow`, `_naming` directly from `root`. -/
def fromSerializable (root : SerializableRoot) : TRelativeOrder :=
  { _worder := T1DLinkedList.fromArray root.worder
    _order := fun windowId => (root.order windowId).map T1DLinkedList.fromArray
    _active := root.active
    _focusedWindow := root.focusedWindow
    _naming := root.naming }

end TRelativeOrder

open TRelativeOrder

/-- The operations of the round-trip claim's build sequences:
`registerWindow`, `appendTabToWindow`, `setName`, `setActiveTab`. -/
inductive BuildOp where
  | registerWindow (w : Int)
  | appendTabToWindow (w : Int) (t : Tab) (inferActive : Bool)
  | setName (w : Int) (n : String)
  | setActiveTab (w t : Int)

/-- Apply one build operation to a tracker.  `appendTabToWindow` on an
unregistered window throws in JavaScript, leaving the tracker unchanged
(`Option.getD`).  `setName`'s tracker component does not depend on the
external collaborators, so they are supplied as dummies. -/
def buildStep (s : TRelativeOrder) : BuildOp → TRelativeOrder
  | .registerWindow w => s.registerWindow w
  | .appendTabToWindow w t ia => (s.appendTabToWindow w t ia).getD s
  | .setName w n =>
      (TRelativeOrder.setName ⟨s, fun _ => none, fun _ => none⟩ w n).rel
  | .setActiveTab w t => s.setActiveTab w t

/-- Run a build sequence from the fresh tracker. -/
def buildRun (ops : List BuildOp) : TRelativeOrder :=
  ops.foldl buildStep freshTracker

/-- The two-tab scenario: register window 1, append tab
`{id: 10, index: 0, active: true}`, then `{id: 11, index: 1, active: false}`
(with the default `inferActive = true`). -/
def scenarioTwoTabs : Option TRelativeOrder :=
  ((freshTracker.registerWindow 1).appendTabToWindow 1 ⟨10, 0, true⟩).bind
    fun s => s.appendTabToWindow 1 ⟨11, 1, false⟩

/-- Tracker states reachable from the fresh tracker by any sequence of
public operations.  A tab operation on an unregistered window throws,
leaving the tracker unchanged (`Option.getD`); `setName` is taken with
arbitrary external collaborators;
`reloadNamesFromTemporaryStore` runs to completion undisturbed. -/
inductive Reachable : TRelativeOrder → Prop where
  | fresh : Reachable freshTracker
  | focus {s} (w : Int) : Reachable s → Reachable (s.setFocusedWindow w)
  | name {s} (store : String → Option String) (pref : Int → Option String)
      (w : Int) (n : String) :
      Reachable s → Reachable (TRelativeOrder.setName ⟨s, store, pref⟩ w n).rel
  | activeTab {s} (w t : Int) : Reachable s → Reachable (s.setActiveTab w t)
  | registerW {s} (w : Int) : Reachable s → Reachable (s.registerWindow w)
  | unregisterW {s} (w : Int) : Reachable s → Reachable (s.unregisterWindow w)
  | appendTab {s} (w : Int) (t : Tab) (ia : Bool) :
      Reachable s → Reachable ((s.appendTabToWindow w t ia).getD s)
  | removeTab {s} (w tid : Int) :
      Reachable s → Reachable ((s.removeTabFromWindow w tid).getD s)
  | insertTab {s} (w tid : Int) (i : Nat) :
      Reachable s → Reachable ((s.insertTabIntoWindow w tid i).getD s)
  | moveTab {s} (w tid : Int) (i : Nat) :
      Reachable s → Reachable ((s.moveTabWithinWindow w tid i).getD s)
  | reload {s} (store : String → Option String) (keys : List Int) :
      Reachable s →
      Reachable (reloadNamesFromTemporaryStore store keys (fun _ u => u) s)

/-- Like `Reachable`, but `registerWindow` is only ever invoked on a
window id that is not currently registered (no re-registration). -/
inductive ReachableNoRereg : TRelativeOrder → Prop where
  | fresh : ReachableNoRereg freshTracker
  | focus {s} (w : Int) :
      ReachableNoRereg s → ReachableNoRereg (s.setFocusedWindow w)
  | name {s} (store : String → Option String) (pref : Int → Option String)
      (w : Int) (n : String) :
      ReachableNoRereg s →
      ReachableNoRereg (TRelativeOrder.setName ⟨s, store, pref⟩ w n).rel
  | activeTab {s} (w t : Int) :
      ReachableNoRereg s → ReachableNoRereg (s.setActiveTab w t)
  | registerW {s} (w : Int) (h : s.hasWindow w = false) :
      ReachableNoRereg s → ReachableNoRereg (s.registerWindow w)
  | unregisterW {s} (w : Int) :
      ReachableNoRereg s → ReachableNoRereg (s.unregisterWindow w)
  | appendTab {s} (w : Int) (t : Tab) (ia : Bool) :
      ReachableNoRereg s →
      ReachableNoRereg ((s.appendTabToWindow w t ia).getD s)
  | removeTab {s} (w tid : Int) :
      ReachableNoRereg s →
      ReachableNoRereg ((s.removeTabFromWindow w tid).getD s)
  | insertTab {s} (w tid : Int) (i : Nat) :
      ReachableNoRereg s →
      ReachableNoRereg ((s.insertTabIntoWindow w tid i).getD s)
  | moveTab {s} (w tid : Int) (i : Nat) :
      ReachableNoRereg s →
      ReachableNoRereg ((s.moveTabWithinWindow w tid i).getD s)
  | reload {s} (store : String → Option String) (keys : List Int) :
      ReachableNoRereg s →
      ReachableNoRereg (reloadNamesFromTemporaryStore store keys (fun _ u => u) s)

/-- Like `Reachable`, but `setActiveTab` and `setName` are only ever
invoked on currently registered window ids. -/
inductive ReachableRegisteredWrites : TRelativeOrder → Prop where
  | fresh : ReachableRegisteredWrites freshTracker
  | focus {s} (w : Int) :
      ReachableRegisteredWrites s →
      ReachableRegisteredWrites (s.setFocusedWindow w)
  | name {s} (store : String → Option String) (pref : Int → Option String)
      (w : Int) (n : String) (h : s.hasWindow w = true) :
      ReachableRegisteredWrites s →
      ReachableRegisteredWrites (TRelativeOrder.setName ⟨s, store, pref⟩ w n).rel
  | activeTab {s} (w t : Int) (h : s.hasWindow w = true) :
      ReachableRegisteredWrites s →
      ReachableRegisteredWrites (s.setActiveTab w t)
  | registerW {s} (w : Int) :
      ReachableRegisteredWrites s →
      ReachableRegisteredWrites (s.registerWindow w)
  | unregisterW {s} (w : Int) :
      ReachableRegisteredWrites s →
      ReachableRegisteredWrites (s.unregisterWindow w)
  | appendTab {s} (w : Int) (t : Tab) (ia : Bool) :
      ReachableRegisteredWrites s →
      ReachableRegisteredWrites ((s.appendTabToWindow w t ia).getD s)
  | removeTab {s} (w tid : Int) :
      ReachableRegisteredWrites s →
      ReachableRegisteredWrites ((s.removeTabFromWindow w tid).getD s)
  | insertTab {s} (w tid : Int) (i : Nat) :
      ReachableRegisteredWrites s →
      ReachableRegisteredWrites ((s.insertTabIntoWindow w tid i).getD s)
  | moveTab {s} (w tid : Int) (i : Nat) :
      ReachableRegisteredWrites s →
      ReachableRegisteredWrites ((s.moveTabWithinWindow w tid i).getD s)
  | reload {s} (store : String → Option String) (keys : List Int) :
      ReachableRegisteredWrites s →
      ReachableRegisteredWrites
        (reloadNamesFromTemporaryStore store keys (fun _ u => u) s)

/-- A concrete build sequence exercising all four operation kinds of the
serialization round-trip claim. -/
def c1BuildOps : List BuildOp :=
  [BuildOp.registerWindow 1,
   BuildOp.appendTabToWindow 1 ⟨10, 0, true⟩ true,
   BuildOp.setName 1 "Work",
   BuildOp.setActiveTab 1 10]

/-- Registration bookkeeping invariant: a window id has a tab-order
entry iff it is in the window order, and the window order has no
duplicates. -/
def RegistrationInv (s : TRelativeOrder) : Prop :=
  (∀ w : Int, s.hasWindow w = true ↔ w ∈ s._worder) ∧ s._worder.Nodup

/-- Record-ownership invariant: active-tab and name records exist only
for registered windows. -/
def OwnedRecordsInv (s : TRelativeOrder) : Prop :=
  ∀ w : Int, ((s._active w).isSome = true → s.hasWindow w = true) ∧
    ((s._naming w).isSome = true → s.hasWindow w = true)

theorem upd_same {α : Type} (m : Int → Option α) (k : Int) (v : Option α) :
    upd m k v k = v := by
  simp [upd]

theorem upd_ne {α : Type} (m : Int → Option α) (v : Option α) {x k : Int}
    (h : x ≠ k) : upd m k v x = m x := by
  simp [upd, h]

theorem remove_cons (x : Int) (xs : List Int) (id : Int) :
    T1DLinkedList.remove (x :: xs) id =
      if x = id then xs else x :: T1DLinkedList.remove xs id := rfl

theorem mem_remove_of_ne {l : List Int} {z id : Int} (hz : z ≠ id) :
    z ∈ T1DLinkedList.remove l id ↔ z ∈ l := by
  induction l with
  | nil => simp [T1DLinkedList.remove]
  | cons x xs ih =>
    rw [remove_cons]
    by_cases hx : x = id
    · subst hx
      simp [hz, if_pos rfl]
    · simp [if_neg hx, ih]

theorem remove_nodup_and_not_mem {l : List Int} (h : l.Nodup) (id : Int) :
    (T1DLinkedList.remove l id).Nodup ∧ id ∉ T1DLinkedList.remove l id := by
  induction l with
  | nil => simp [T1DLinkedList.remove]
  | cons x xs ih =>
    rw [List.nodup_cons] at h
    obtain ⟨hx, hxs⟩ := h
    obtain ⟨ihn, ihm⟩ := ih hxs
    rw [remove_cons]
    by_cases hxi : x = id
    · subst hxi
      rw [if_pos rfl]
      exact ⟨hxs, hx⟩
    · rw [if_neg hxi]
      refine ⟨List.nodup_cons.mpr
        ⟨fun hc => hx ((mem_remove_of_ne hxi).mp hc), ihn⟩, ?_⟩
      simp only [List.mem_cons, not_or]
      exact ⟨fun he => hxi he.symm, ihm⟩

theorem filter_remove (l : List Int) (id : Int) :
    (T1DLinkedList.remove l id).filter (· != id) = l.filter (· != id) := by
  induction l with
  | nil => rfl
  | cons x xs ih =>
    rw [remove_cons]
    by_cases hx : x = id
    · subst hx
      simp
    · simp [List.filter_cons, bne_iff_ne, hx, ih]

/-- C10: `move(id, p)` equals `remove(id)` followed by `insert(id, p)`
with the same clamping; afterwards the element at the clamped position
is `id`, and the subsequence of all other ids is unchanged. -/
theorem c10_move_remove_insert (S : List Int) (id : Int) (p : Nat)
    (h : id ∈ S) :
    T1DLinkedList.move S id p
        = T1DLinkedList.insert (T1DLinkedList.remove S id) id p ∧
    (T1DLinkedList.move S id p)[min p (T1DLinkedList.remove S id).length]?
        = some id ∧
    (T1DLinkedList.move S id p).filter (· != id) = S.filter (· != id) := by
  refine ⟨rfl, ?_, ?_⟩
  · show (T1DLinkedList.insert (T1DLinkedList.remove S id) id p)[_]? = _
    rw [T1DLinkedList.insert]
    have hlen : ((T1DLinkedList.remove S id).take p).length
        = min p (T1DLinkedList.remove S id).length := by
      simp
    rw [← hlen, List.getElem?_append_right (le_refl _)]
    simp
  · show (T1DLinkedList.insert (T1DLinkedList.remove S id) id p).filter _ = _
    rw [T1DLinkedList.insert, List.filter_append, List.filter_cons]
    simp only [bne_self_eq_false, Bool.false_eq_true, if_false]
    rw [← List.filter_append, List.take_append_drop, filter_remove]

/-- C10 witness: moving tab 10 to position 1 in `[10, 11]`. -/
theorem c10_move_remove_insert_witness :
    (10 : Int) ∈ [(10 : Int), 11] ∧
    (T1DLinkedList.move [(10 : Int), 11] 10 1
        = T1DLinkedList.insert (T1DLinkedList.remove [(10 : Int), 11] 10) 10 1 ∧
      (T1DLinkedList.move [(10 : Int), 11] 10 1)[min 1
          (T1DLinkedList.remove [(10 : Int), 11] 10).length]? = some 10 ∧
      (T1DLinkedList.move [(10 : Int), 11] 10 1).filter (· != 10)
        = [(10 : Int), 11].filter (· != 10)) :=
  ⟨by decide, c10_move_remove_insert [10, 11] 10 1 (by decide)⟩

/-- C5: `setName` trims for the emptiness test only: a whitespace-only
name clears the in-memory name, unsets the store key `window<w>` and
clears the title preface; a non-blank name is stored and persisted
untrimmed and the preface becomes `[<name>] `. -/
theorem c5_setName (e : TEnv) (w : Int) (n : String) :
    (TRelativeOrder.setName e w n).rel.getName w
        = (if jsTrim n = "" then none else some n) ∧
    (TRelativeOrder.setName e w n).store (winKey w)
        = (if jsTrim n = "" then none else some n) ∧
    (TRelativeOrder.setName e w n).preface w
        = some (if jsTrim n = "" then "" else "[" ++ n ++ "] ") := by
  by_cases h : jsTrim n = "" <;>
    simp [TRelativeOrder.setName, h, TRelativeOrder.getName, upd]

/-- C6: `registerWindow` resets the window to an empty tab sequence,
active-tab sentinel `-1` and undefined name, and appends the id to the
end of the window order, regardless of any prior records. -/
theorem c6_registerWindow (s : TRelativeOrder) (w : Int) :
    (s.registerWindow w)._order w = some T1DLinkedList.empty ∧
    (s.registerWindow w).getActiveTab w = some (-1) ∧
    (s.registerWindow w).getName w = none ∧
    (s.registerWindow w)._naming w = some none ∧
    (s.registerWindow w)._worder = s._worder ++ [w] ∧
    (s.registerWindow w).hasWindow w = true := by
  simp [TRelativeOrder.registerWindow, TRelativeOrder.getActiveTab,
    TRelativeOrder.getName, TRelativeOrder.hasWindow, upd,
    T1DLinkedList.append]

/-- C7: after register-then-unregister the window is gone and its name
and active-tab reads are `undefined`; unregistering a never-registered
window is a no-op that does not throw. -/
theorem c7_unregisterWindow (s : TRelativeOrder) (w : Int) :
    ((s.registerWindow w).unregisterWindow w).hasWindow w = false ∧
    ((s.registerWindow w).unregisterWindow w).getName w = none ∧
    ((s.registerWindow w).unregisterWindow w).getActiveTab w = none ∧
    freshTracker.unregisterWindow w = freshTracker := by
  refine ⟨?_, ?_, ?_, ?_⟩
  · simp [TRelativeOrder.unregisterWindow, TRelativeOrder.hasWindow, upd]
  · simp [TRelativeOrder.unregisterWindow, TRelativeOrder.getName, upd]
  · simp [TRelativeOrder.unregisterWindow, TRelativeOrder.getActiveTab, upd]
  · ext x
    · simp [TRelativeOrder.unregisterWindow, freshTracker,
        T1DLinkedList.remove, T1DLinkedList.empty]
    · simp [TRelativeOrder.unregisterWindow, freshTracker, upd]
    · simp [TRelativeOrder.unregisterWindow, freshTracker, upd]
    · simp [TRelativeOrder.unregisterWindow, freshTracker]
    · simp [TRelativeOrder.unregisterWindow, freshTracker, upd]

/-- C8: every tab operation on an unregistered window dereferences the
absent tab-order entry and throws (`none`), leaving the tracker
unchanged. -/
theorem c8_unregistered_tab_ops (s : TRelativeOrder) (w tid : Int)
    (t : Tab) (ia : Bool) (i : Nat) (h : s.hasWindow w = false) :
    s.appendTabToWindow w t ia = none ∧
    (s.appendTabToWindow w t ia).getD s = s ∧
    s.removeTabFromWindow w tid = none ∧
    (s.removeTabFromWindow w tid).getD s = s ∧
    s.insertTabIntoWindow w tid i = none ∧
    (s.insertTabIntoWindow w tid i).getD s = s ∧
    s.moveTabWithinWindow w tid i = none ∧
    (s.moveTabWithinWindow w tid i).getD s = s := by
  have ho : s._order w = none := by
    cases hc : s._order w with
    | none => rfl
    | some l => rw [TRelativeOrder.hasWindow, hc] at h; simp at h
  simp [TRelativeOrder.appendTabToWindow, TRelativeOrder.removeTabFromWindow,
    TRelativeOrder.insertTabIntoWindow, TRelativeOrder.moveTabWithinWindow, ho]

/-- C8 witness: the four tab operations on the fresh tracker's
unregistered window 1. -/
theorem c8_unregistered_tab_ops_witness :
    freshTracker.hasWindow 1 = false ∧
    (freshTracker.appendTabToWindow 1 ⟨10, 0, true⟩ true = none ∧
      (freshTracker.appendTabToWindow 1 ⟨10, 0, true⟩ true).getD freshTracker
        = freshTracker ∧
      freshTracker.removeTabFromWindow 1 2 = none ∧
      (freshTracker.removeTabFromWindow 1 2).getD freshTracker = freshTracker ∧
      freshTracker.insertTabIntoWindow 1 2 0 = none ∧
      (freshTracker.insertTabIntoWindow 1 2 0).getD freshTracker
        = freshTracker ∧
      freshTracker.moveTabWithinWindow 1 2 0 = none ∧
      (freshTracker.moveTabWithinWindow 1 2 0).getD freshTracker
        = freshTracker) :=
  ⟨rfl, c8_unregistered_tab_ops freshTracker 1 2 ⟨10, 0, true⟩ true 0 rfl⟩

/-- C9: the failing interleaving — with window 1 registered and a stored
name `"A"` under `window1`, an `unregisterWindow(1)` performed while the
store read for window 1 is in flight does not stop the loop's write-back:
the deleted name record is resurrected for the now-unregistered
window. -/
theorem c9_reload_resurrection :
    (TRelativeOrder.reloadNamesFromTemporaryStore
        (fun k => if k = winKey 1 then some "A" else none) [1]
        (fun _ u => u.unregisterWindow 1)
        (freshTracker.registerWindow 1))._naming 1 = some (some "A") ∧
    (TRelativeOrder.reloadNamesFromTemporaryStore
        (fun k => if k = winKey 1 then some "A" else none) [1]
        (fun _ u => u.unregisterWindow 1)
        (freshTracker.registerWindow 1)).hasWindow 1 = false ∧
    (TRelativeOrder.reloadNamesFromTemporaryStore
        (fun k => if k = winKey 1 then some "A" else none) [1]
        (fun _ u => u.unregisterWindow 1)
        (freshTracker.registerWindow 1)).getName 1 = some "A" := by
  refine ⟨?_, ?_, ?_⟩ <;> decide

theorem tracker_roundtrip (s : TRelativeOrder) :
    TRelativeOrder.fromSerializable (s.toSerializable) = s := by
  refine TRelativeOrder.ext rfl ?_ rfl rfl rfl
  funext w
  show ((s._order w).map T1DLinkedList.toArray).map T1DLinkedList.fromArray
      = s._order w
  cases s._order w <;> rfl

/-- C1: for a tracker built by any sequence of `registerWindow`,
`appendTabToWindow`, `setName`, `setActiveTab`, deserializing its
serialization reproduces `getAllAs2DArray`, `getName` and
`getActiveTab` for every registered window, and `getFocusedWindow`. -/
theorem c1_serialization_roundtrip (ops : List BuildOp) (w : Int)
    (h : (buildRun ops).hasWindow w = true) :
    (TRelativeOrder.fromSerializable
        (buildRun ops).toSerializable).getAllAs2DArray
      = (buildRun ops).getAllAs2DArray ∧
    (TRelativeOrder.fromSerializable (buildRun ops).toSerializable).getName w
      = (buildRun ops).getName w ∧
    (TRelativeOrder.fromSerializable
        (buildRun ops).toSerializable).getActiveTab w
      = (buildRun ops).getActiveTab w ∧
    (TRelativeOrder.fromSerializable
        (buildRun ops).toSerializable).getFocusedWindow
      = (buildRun ops).getFocusedWindow := by
  rw [tracker_roundtrip]
  exact ⟨rfl, rfl, rfl, rfl⟩

/-- C1 witness: the round trip at a concrete build sequence touching all
four operations, observed at the registered window 1. -/
theorem c1_serialization_roundtrip_witness :
    (buildRun c1BuildOps).hasWindow 1 = true ∧
    ((TRelativeOrder.fromSerializable
        (buildRun c1BuildOps).toSerializable).getAllAs2DArray
      = (buildRun c1BuildOps).getAllAs2DArray ∧
    (TRelativeOrder.fromSerializable
        (buildRun c1BuildOps).toSerializable).getName 1
      = (buildRun c1BuildOps).getName 1 ∧
    (TRelativeOrder.fromSerializable
        (buildRun c1BuildOps).toSerializable).getActiveTab 1
      = (buildRun c1BuildOps).getActiveTab 1 ∧
    (TRelativeOrder.fromSerializable
        (buildRun c1BuildOps).toSerializable).getFocusedWindow
      = (buildRun c1BuildOps).getFocusedWindow) :=
  ⟨by decide, c1_serialization_roundtrip c1BuildOps 1 (by decide)⟩

/-- C2: the two-tab scenario yields `[[10, 11]]` with active tab 10;
in general `appendTabToWindow` on a registered window inserts `tab.id`
at position `tab.index` and updates the active-tab record to `tab.id`
exactly when `tab.active && inferActive`. -/
theorem c2_appendTabToWindow (s : TRelativeOrder) (w : Int) (t : Tab)
    (ia : Bool) (l : List Int) (h : s._order w = some l) :
    (scenarioTwoTabs.map TRelativeOrder.getAllAs2DArray
        = some (some [[10, 11]]) ∧
      scenarioTwoTabs.map (fun u => u.getActiveTab 1) = some (some 10)) ∧
    s.appendTabToWindow w t ia = some
      { s with
        _order := upd s._order w
          (some (T1DLinkedList.insert l t.id t.index))
        _active := if t.active && ia then upd s._active w (some t.id)
                   else s._active } := by
  refine ⟨⟨by decide, by decide⟩, ?_⟩
  simp [TRelativeOrder.appendTabToWindow, h]

/-- C2 witness: the first append of the scenario, instantiated on the
freshly registered window 1. -/
theorem c2_appendTabToWindow_witness :
    (freshTracker.registerWindow 1)._order 1 = some [] ∧
    ((scenarioTwoTabs.map TRelativeOrder.getAllAs2DArray
        = some (some [[10, 11]]) ∧
      scenarioTwoTabs.map (fun u => u.getActiveTab 1) = some (some 10)) ∧
    (freshTracker.registerWindow 1).appendTabToWindow 1 ⟨10, 0, true⟩ true
      = some
      { freshTracker.registerWindow 1 with
        _order := upd (freshTracker.registerWindow 1)._order 1
          (some (T1DLinkedList.insert [] 10 0))
        _active := if true && true then
            upd (freshTracker.registerWindow 1)._active 1 (some 10)
          else (freshTracker.registerWindow 1)._active }) :=
  ⟨by decide,
    c2_appendTabToWindow (freshTracker.registerWindow 1) 1 ⟨10, 0, true⟩
      true [] (by decide)⟩

theorem reload_fields (store : String → Option String) (keys : List Int) :
    ∀ s : TRelativeOrder,
      (TRelativeOrder.reloadNamesFromTemporaryStore store keys
          (fun _ u => u) s)._order = s._order ∧
      (TRelativeOrder.reloadNamesFromTemporaryStore store keys
          (fun _ u => u) s)._worder = s._worder ∧
      (TRelativeOrder.reloadNamesFromTemporaryStore store keys
          (fun _ u => u) s)._active = s._active := by
  induction keys with
  | nil => exact fun s => ⟨rfl, rfl, rfl⟩
  | cons k rest ih =>
    intro s
    simp only [TRelativeOrder.reloadNamesFromTemporaryStore]
    split
    · split
      · exact ih _
      · exact ih _
    · exact ih _

theorem reload_ownedInv (store : String → Option String) (keys : List Int) :
    ∀ s : TRelativeOrder, OwnedRecordsInv s →
      OwnedRecordsInv (TRelativeOrder.reloadNamesFromTemporaryStore store keys
        (fun _ u => u) s) := by
  induction keys with
  | nil => exact fun s hs => hs
  | cons k rest ih =>
    intro s hs
    simp only [TRelativeOrder.reloadNamesFromTemporaryStore]
    split
    · rename_i hk
      split
      · refine ih _ fun w' => ⟨(hs w').1, fun hn => ?_⟩
        by_cases hw : w' = k
        · subst hw
          exact (hs w').2 hk
        · simp only [upd, if_neg hw] at hn
          exact (hs w').2 hn
      · exact ih _ hs
    · exact ih _ hs

theorem registrationInv_tabop {s : TRelativeOrder}
    (hinv : RegistrationInv s) {w : Int} {l : List Int}
    (hc : s._order w = some l) (m : List Int) (a : Int → Option Int) :
    RegistrationInv
      { s with _order := upd s._order w (some m), _active := a } := by
  obtain ⟨hiff, hnd⟩ := hinv
  refine ⟨fun w' => ?_, hnd⟩
  by_cases hw : w' = w
  · subst hw
    constructor
    · intro _
      exact (hiff w').mp (by simp [TRelativeOrder.hasWindow, hc])
    · intro _
      show (upd s._order w' (some m) w').isSome = true
      rw [upd_same]
      rfl
  · show (upd s._order w (some m) w').isSome = true ↔ w' ∈ s._worder
    rw [upd_ne s._order (some m) hw]
    exact hiff w'

theorem ownedInv_tabop {s : TRelativeOrder} (hinv : OwnedRecordsInv s)
    {w : Int} {l : List Int} (hc : s._order w = some l) (m : List Int)
    (a : Int → Option Int)
    (ha : a = s._active ∨ ∃ tid, a = upd s._active w (some tid)) :
    OwnedRecordsInv
      { s with _order := upd s._order w (some m), _active := a } := by
  intro w'
  constructor
  · intro hact
    by_cases hw : w' = w
    · subst hw
      simp [TRelativeOrder.hasWindow, upd]
    · simp only [TRelativeOrder.hasWindow, upd, if_neg hw]
      rcases ha with rfl | ⟨tid, rfl⟩
      · exact (hinv w').1 hact
      · simp only [upd, if_neg hw] at hact
        exact (hinv w').1 hact
  · intro hn
    by_cases hw : w' = w
    · subst hw
      simp [TRelativeOrder.hasWindow, upd]
    · simp only [TRelativeOrder.hasWindow, upd, if_neg hw]
      exact (hinv w').2 hn

theorem registrationInv_reachable {s : TRelativeOrder}
    (h : ReachableNoRereg s) : RegistrationInv s := by
  induction h with
  | fresh =>
    refine ⟨fun w => ?_, ?_⟩
    · simp [TRelativeOrder.hasWindow, freshTracker, T1DLinkedList.empty]
    · simp [freshTracker, T1DLinkedList.empty]
  | focus w hr ih => exact ih
  | @name s store pref w n hr ih =>
    show RegistrationInv (TRelativeOrder.setName ⟨s, store, pref⟩ w n).rel
    unfold TRelativeOrder.setName
    split <;> exact ih
  | activeTab w t hr ih => exact ih
  | @registerW s w hg hr ih =>
    obtain ⟨hiff, hnd⟩ := ih
    have hwmem : w ∉ s._worder := fun hm => by
      have hh := (hiff w).mpr hm
      rw [hg] at hh
      exact Bool.false_ne_true hh
    refine ⟨fun w' => ?_, ?_⟩
    · by_cases hw : w' = w
      · subst hw
        simp [TRelativeOrder.registerWindow, TRelativeOrder.hasWindow, upd,
          T1DLinkedList.append]
      · simp only [TRelativeOrder.registerWindow, TRelativeOrder.hasWindow,
          upd, if_neg hw, T1DLinkedList.append, List.mem_append,
          List.mem_singleton, hw, or_false]
        exact hiff w'
    · simp only [TRelativeOrder.registerWindow, T1DLinkedList.append]
      rw [List.nodup_append]
      refine ⟨hnd, List.nodup_singleton w, ?_⟩
      intro x hx hx1
      rw [List.mem_singleton] at hx1
      subst hx1
      exact hwmem hx
  | @unregisterW s w hr ih =>
    obtain ⟨hiff, hnd⟩ := ih
    obtain ⟨hndr, hnm⟩ := remove_nodup_and_not_mem hnd w
    refine ⟨fun w' => ?_, hndr⟩
    · by_cases hw : w' = w
      · subst hw
        have hfalse : (s.unregisterWindow w').hasWindow w' = false := by
          show (upd s._order w' none w').isSome = false
          rw [upd_same]
          rfl
        rw [hfalse]
        simp only [Bool.false_eq_true, false_iff]
        exact hnm
      · show (upd s._order w none w').isSome = true ↔
          w' ∈ T1DLinkedList.remove s._worder w
        rw [upd_ne s._order none hw, mem_remove_of_ne hw]
        exact hiff w'
  | @appendTab s w t ia hr ih =>
    cases hc : s._order w with
    | none => simpa [TRelativeOrder.appendTabToWindow, hc] using ih
    | some l =>
      simp only [TRelativeOrder.appendTabToWindow, hc, Option.map_some',
        Option.getD_some]
      split
      · exact registrationInv_tabop ih hc _ _
      · exact registrationInv_tabop ih hc _ _
  | @removeTab s w tid hr ih =>
    cases hc : s._order w with
    | none => simpa [TRelativeOrder.removeTabFromWindow, hc] using ih
    | some l =>
      simp only [TRelativeOrder.removeTabFromWindow, hc, Option.map_some',
        Option.getD_some]
      exact registrationInv_tabop ih hc _ _
  | @insertTab s w tid i hr ih =>
    cases hc : s._order w with
    | none => simpa [TRelativeOrder.insertTabIntoWindow, hc] using ih
    | some l =>
      simp only [TRelativeOrder.insertTabIntoWindow, hc, Option.map_some',
        Option.getD_some]
      exact registrationInv_tabop ih hc _ _
  | @moveTab s w tid i hr ih =>
    cases hc : s._order w with
    | none => simpa [TRelativeOrder.moveTabWithinWindow, hc] using ih
    | some l =>
      simp only [TRelativeOrder.moveTabWithinWindow, hc, Option.map_some',
        Option.getD_some]
      exact registrationInv_tabop ih hc _ _
  | @reload s store keys hr ih =>
    obtain ⟨ho, hw, _⟩ := reload_fields store keys s
    obtain ⟨hiff, hnd⟩ := ih
    refine ⟨fun w' => ?_, ?_⟩
    · rw [TRelativeOrder.hasWindow, ho, hw]
      exact hiff w'
    · rw [hw]
      exact hnd

theorem ownedInv_reachable {s : TRelativeOrder}
    (h : ReachableRegisteredWrites s) : OwnedRecordsInv s := by
  induction h with
  | fresh =>
    exact fun w => by simp [freshTracker]
  | focus w hr ih => exact ih
  | @name s store pref w n hg hr ih =>
    show OwnedRecordsInv (TRelativeOrder.setName ⟨s, store, pref⟩ w n).rel
    unfold TRelativeOrder.setName
    split <;>
    · intro w'
      refine ⟨(ih w').1, fun hn => ?_⟩
      by_cases hw : w' = w
      · subst hw
        exact hg
      · simp only [upd, if_neg hw] at hn
        exact (ih w').2 hn
  | @activeTab s w t hg hr ih =>
    intro w'
    refine ⟨fun ha => ?_, (ih w').2⟩
    by_cases hw : w' = w
    · subst hw
      exact hg
    · simp only [TRelativeOrder.setActiveTab, upd, if_neg hw] at ha
      exact (ih w').1 ha
  | @registerW s w hr ih =>
    intro w'
    by_cases hw : w' = w
    · subst hw
      constructor <;> intro _ <;>
        simp [TRelativeOrder.registerWindow, TRelativeOrder.hasWindow, upd]
    · constructor
      · intro ha
        simp only [TRelativeOrder.registerWindow, upd, if_neg hw] at ha
        simp only [TRelativeOrder.registerWindow, TRelativeOrder.hasWindow,
          upd, if_neg hw]
        exact (ih w').1 ha
      · intro hn
        simp only [TRelativeOrder.registerWindow, upd, if_neg hw] at hn
        simp only [TRelativeOrder.registerWindow, TRelativeOrder.hasWindow,
          upd, if_neg hw]
        exact (ih w').2 hn
  | @unregisterW s w hr ih =>
    intro w'
    by_cases hw : w' = w
    · subst hw
      constructor <;> intro ha <;>
        simp [TRelativeOrder.unregisterWindow, upd] at ha
    · constructor
      · intro ha
        simp only [TRelativeOrder.unregisterWindow, upd, if_neg hw] at ha
        simp only [TRelativeOrder.unregisterWindow, TRelativeOrder.hasWindow,
          upd, if_neg hw]
        exact (ih w').1 ha
      · intro hn
        simp only [TRelativeOrder.unregisterWindow, upd, if_neg hw] at hn
        simp only [TRelativeOrder.unregisterWindow, TRelativeOrder.hasWindow,
          upd, if_neg hw]
        exact (ih w').2 hn
  | @appendTab s w t ia hr ih =>
    cases hc : s._order w with
    | none => simpa [TRelativeOrder.appendTabToWindow, hc] using ih
    | some l =>
      simp only [TRelativeOrder.appendTabToWindow, hc, Option.map_some',
        Option.getD_some]
      split
      · exact ownedInv_tabop ih hc _ _ (Or.inr ⟨t.id, rfl⟩)
      · exact ownedInv_tabop ih hc _ _ (Or.inl rfl)
  | @removeTab s w tid hr ih =>
    cases hc : s._order w with
    | none => simpa [TRelativeOrder.removeTabFromWindow, hc] using ih
    | some l =>
      simp only [TRelativeOrder.removeTabFromWindow, hc, Option.map_some',
        Option.getD_some]
      exact ownedInv_tabop ih hc _ _ (Or.inl rfl)
  | @insertTab s w tid i hr ih =>
    cases hc : s._order w with
    | none => simpa [TRelativeOrder.insertTabIntoWindow, hc] using ih
    | some l =>
      simp only [TRelativeOrder.insertTabIntoWindow, hc, Option.map_some',
        Option.getD_some]
      exact ownedInv_tabop ih hc _ _ (Or.inl rfl)
  | @moveTab s w tid i hr ih =>
    cases hc : s._order w with
    | none => simpa [TRelativeOrder.moveTabWithinWindow, hc] using ih
    | some l =>
      simp only [TRelativeOrder.moveTabWithinWindow, hc, Option.map_some',
        Option.getD_some]
      exact ownedInv_tabop ih hc _ _ (Or.inl rfl)
  | @reload s store keys hr ih =>
    exact reload_ownedInv store keys s ih

/-- C3 counterexample: re-registering the already-registered window 1 is
a public-operation sequence after which window 1's id appears twice in
the window order, not exactly once. -/
theorem c3_counterexample_rereg :
    Reachable ((freshTracker.registerWindow 1).registerWindow 1) ∧
    ((freshTracker.registerWindow 1).registerWindow 1).hasWindow 1 = true ∧
    ((freshTracker.registerWindow 1).registerWindow 1)._worder = [1, 1] ∧
    List.count 1 ((freshTracker.registerWindow 1).registerWindow 1)._worder
      = 2 :=
  ⟨.registerW 1 (.registerW 1 .fresh), by decide, by decide, by decide⟩

/-- C3 (amended): in every state reachable by public operations in which
`registerWindow` is only ever applied to not-currently-registered ids, a
window id has a tab-order entry iff it appears exactly once in the
window order. -/
theorem c3_registration_lockstep (s : TRelativeOrder)
    (h : ReachableNoRereg s) (w : Int) :
    s.hasWindow w = true ↔ List.count w s._worder = 1 := by
  obtain ⟨hiff, hnd⟩ := registrationInv_reachable h
  constructor
  · intro hw
    exact List.count_eq_one_of_mem hnd ((hiff w).mp hw)
  · intro hc
    refine (hiff w).mpr (List.count_pos_iff.mp ?_)
    rw [hc]
    exact Nat.one_pos

/-- C3 witness: the lockstep property at the reachable state with window
1 registered once. -/
theorem c3_registration_lockstep_witness :
    (freshTracker.registerWindow 1).hasWindow 1 = true ↔
      List.count 1 (freshTracker.registerWindow 1)._worder = 1 :=
  c3_registration_lockstep (freshTracker.registerWindow 1)
    (.registerW 1 (by decide) .fresh) 1

/-- C4 counterexample: `setActiveTab` on the never-registered window 5
is a public operation that creates an active-tab record for an
unregistered window. -/
theorem c4_counterexample_unregistered_record :
    Reachable (freshTracker.setActiveTab 5 7) ∧
    (freshTracker.setActiveTab 5 7)._active 5 = some 7 ∧
    (freshTracker.setActiveTab 5 7).hasWindow 5 = false :=
  ⟨.activeTab 5 7 .fresh, by decide, by decide⟩

/-- C4 (amended): in every state reachable by public operations in which
`setActiveTab` and `setName` are only ever applied to currently
registered ids, active-tab and name records exist only for registered
windows; and `unregisterWindow` removes the tab-order, active-tab and
name records together with the id's window-order entry in one step. -/
theorem c4_owned_records (s : TRelativeOrder)
    (h : ReachableRegisteredWrites s) (w : Int) :
    ((s._active w).isSome = true → s.hasWindow w = true) ∧
    ((s._naming w).isSome = true → s.hasWindow w = true) ∧
    (s.unregisterWindow w)._order w = none ∧
    (s.unregisterWindow w)._active w = none ∧
    (s.unregisterWindow w)._naming w = none ∧
    (s.unregisterWindow w)._worder = T1DLinkedList.remove s._worder w := by
  have h4 := ownedInv_reachable h
  refine ⟨(h4 w).1, (h4 w).2, ?_, ?_, ?_, rfl⟩ <;>
    simp [TRelativeOrder.unregisterWindow, upd]

/-- C4 witness: the record-ownership property at the reachable state
with window 1 registered and its active tab set to 10. -/
theorem c4_owned_records_witness :
    ((((freshTracker.registerWindow 1).setActiveTab 1 10)._active 1).isSome
        = true →
      ((freshTracker.registerWindow 1).setActiveTab 1 10).hasWindow 1
        = true) ∧
    ((((freshTracker.registerWindow 1).setActiveTab 1 10)._naming 1).isSome
        = true →
      ((freshTracker.registerWindow 1).setActiveTab 1 10).hasWindow 1
        = true) ∧
    (((freshTracker.registerWindow 1).setActiveTab 1 10).unregisterWindow
        1)._order 1 = none ∧
    (((freshTracker.registerWindow 1).setActiveTab 1 10).unregisterWindow
        1)._active 1 = none ∧
    (((freshTracker.registerWindow 1).setActiveTab 1 10).unregisterWindow
        1)._naming 1 = none ∧
    (((freshTracker.registerWindow 1).setActiveTab 1 10).unregisterWindow
        1)._worder
      = T1DLinkedList.remove
          ((freshTracker.registerWindow 1).setActiveTab 1 10)._worder 1 :=
  c4_owned_records _ (.activeTab 1 10 (by decide) (.registerW 1 .fresh)) 1

end Tabby
